import Mathlib

/-!
Verification of the async-maxminddb MaxMind DB reader (src/maxminddb/lib.rs,
src/maxminddb/source.rs) against its natural-language specification.

The Rust code is shallowly embedded: the byte source is a pure `List UInt8`
(the file's contents), positioned reads are total functions returning
`RRes`, and each Rust function becomes a Lean function of the same shape.
Rust panics (slice-index / arithmetic-overflow aborts, as checked in debug
builds) are modelled by the distinguished outcome `RRes.panicked`.
-/

namespace MMDB

/-- Embeds `enum MaxMindDBError` (lib.rs 14-22). -/
inductive MaxMindDBError where
  | addressNotFoundError (msg : String)
  | invalidDatabaseError (msg : String)
  | ioError (msg : String)
  | mapError (msg : String)
  | decodingError (msg : String)
  | invalidNetworkError (msg : String)
deriving DecidableEq, Repr

/-- Outcome of running a piece of the Rust code: a value, a returned
`MaxMindDBError`, or an aborted execution (Rust panic). -/
inductive RRes (α : Type) where
  | ok (a : α)
  | err (e : MaxMindDBError)
  | panicked (msg : String)
deriving DecidableEq, Repr

def RRes.bind {α β : Type} : RRes α → (α → RRes β) → RRes β
  | .ok a, f => f a
  | .err e, _ => .err e
  | .panicked m, _ => .panicked m

instance : Monad RRes where
  pure := RRes.ok
  bind := RRes.bind

/-- Embeds `struct Metadata` (lib.rs 60-71); the numeric machine types
(u16/u32/u64) are modelled as `Nat` (no arithmetic on them ever overflows
in the embedded code paths). -/
structure Metadata where
  binary_format_major_version : Nat
  binary_format_minor_version : Nat
  build_epoch : Nat
  database_type : String
  description : List (String × String)
  ip_version : Nat
  languages : List String
  node_count : Nat
  record_size : Nat
deriving DecidableEq, Repr

/-- Embeds `struct Reader` (lib.rs 74-79).  The `source_path` field is
replaced by passing the file's bytes `db` explicitly to each operation:
every operation re-opens the same path, so with fixed file contents the
two presentations agree. -/
structure Reader where
  metadata : Metadata
  ipv4Start : Nat
  pointerBase : Nat
deriving DecidableEq, Repr

/-- Embeds `std::net::IpAddr` as the two octet shapes `ip_to_bytes`
distinguishes (lib.rs 294-299). -/
inductive IpAddr where
  | v4 (a b c d : UInt8)
  | v6 (a b c d e f g h i j k l m n o p : UInt8)
deriving DecidableEq, Repr

/-- Embeds `ip_to_bytes` (lib.rs 294-299): network-order octets. -/
def ipToBytes : IpAddr → List UInt8
  | .v4 a b c d => [a, b, c, d]
  | .v6 a b c d e f g h i j k l m n o p =>
      [a, b, c, d, e, f, g, h, i, j, k, l, m, n, o, p]

/-- Embeds `Source::read` / `read_at` (source.rs 41-50): `read_exact`
returns exactly `len` bytes at `start` and fails with an I/O error when
the range runs past the end of the file. -/
def sourceReadAt (db : List UInt8) (start len : Nat) : RRes (List UInt8) :=
  if start + len ≤ db.length then .ok ((db.drop start).take len)
  else .err (.ioError "failed to fill whole buffer")

/-- Embeds `Source::read_one` (source.rs 52-54). -/
def sourceReadOne (db : List UInt8) (start : Nat) : RRes UInt8 :=
  (sourceReadAt db start 1).bind fun bs => .ok (bs.getD 0 0)

/-- Embeds `to_usize` (lib.rs 288-292): big-endian accumulation
`(acc << 8) | b`.  The accumulator never exceeds `2 ^ 40` on any call
site (at most four bytes over a one-byte base), so the `usize` wrap-around
is irrelevant and plain `Nat` is used. -/
def to_usize (base : UInt8) (bytes : List UInt8) : Nat :=
  bytes.foldl (fun acc b => (acc <<< 8) ||| b.toNat) base.toNat

/-- Message built by `format!("unknown record size: {:?}", s)`
(lib.rs 261-265). -/
def unknownRecordSizeMsg (s : Nat) : String :=
  "unknown record size: " ++ toString s

/-- Embeds `Reader::read_node` (lib.rs 238-269).  The Rust `match` over
`record_size` with literal patterns `24 | 28 | 32 | s` is written as the
equivalent chain of equality tests. -/
def readNode (db : List UInt8) (md : Metadata) (nodeNumber index : Nat) :
    RRes Nat :=
  let baseOffset := nodeNumber * md.record_size / 4
  if md.record_size = 24 then
    (sourceReadAt db (baseOffset + index * 3) 3).bind fun bs =>
      .ok (to_usize 0 bs)
  else if md.record_size = 28 then
    (sourceReadOne db (baseOffset + 3)).bind fun middle0 =>
      let middle :=
        if index ≠ 0 then middle0 &&& 0x0F else (0xF0 &&& middle0) >>> 4
      (sourceReadAt db (baseOffset + index * 4) 3).bind fun bs =>
        .ok (to_usize middle bs)
  else if md.record_size = 32 then
    (sourceReadAt db (baseOffset + index * 4) 4).bind fun bs =>
      .ok (to_usize 0 bs)
  else
    .err (.invalidDatabaseError (unknownRecordSizeMsg md.record_size))

/-- Embeds `Reader::start_node` (lib.rs 213-219). -/
def startNode (ipv4Start length : Nat) : Nat :=
  if length = 128 then 0 else ipv4Start

/-- Embeds the `for i in 0..bit_count` loop of `find_address_in_tree`
(lib.rs 195-203).  `i` counts the bits consumed so far and `rest` the
bits still available (`i + rest = bit_count` at the top-level call); the
loop breaks with `prefix_len = i` as soon as `node >= node_count`, and
when all bits are consumed `prefix_len` keeps its initial value
`bit_count = ip.length * 8`. -/
def treeWalkLoop (db : List UInt8) (md : Metadata) (ip : List UInt8)
    (node i : Nat) : Nat → RRes (Nat × Nat)
  | 0 => .ok (node, ip.length * 8)
  | rest + 1 =>
    if node ≥ md.node_count then .ok (node, i)
    else
      let bit := 1 &&& ((ip.getD (i >>> 3) 0).toNat >>> (7 - i % 8))
      (readNode db md node bit).bind fun node' =>
        treeWalkLoop db md ip node' (i + 1) rest

/-- Embeds `Reader::find_address_in_tree` (lib.rs 188-211). -/
def findAddressInTree (db : List UInt8) (md : Metadata) (ipv4Start : Nat)
    (ip : List UInt8) : RRes (Nat × Nat) :=
  (treeWalkLoop db md ip (startNode ipv4Start (ip.length * 8)) 0
      (ip.length * 8)).bind fun np =>
    if md.node_count = np.1 then .ok (0, np.2)
    else if np.1 > md.node_count then .ok (np.1, np.2)
    else .err (.invalidDatabaseError "invalid node in search tree")

/-- Embeds the `for _ in 0_u8..96` loop of `find_ipv4_start`
(lib.rs 229-234). -/
def findIpv4StartLoop (db : List UInt8) (md : Metadata) :
    Nat → Nat → RRes Nat
  | node, 0 => .ok node
  | node, steps + 1 =>
    if node ≥ md.node_count then .ok node
    else (readNode db md node 0).bind fun node' =>
      findIpv4StartLoop db md node' steps

/-- Embeds `Reader::find_ipv4_start` (lib.rs 221-236). -/
def findIpv4Start (db : List UInt8) (md : Metadata) : RRes Nat :=
  if md.ip_version ≠ 6 then .ok 0
  else findIpv4StartLoop db md 0 96

/-- Embeds `Reader::resolve_data_pointer` (lib.rs 271-283).  The Rust
`pointer - node_count - 16` is an unchecked `usize` subtraction: when
`pointer < node_count + 16` it underflows, which aborts the program
(overflow check); this is the `panicked` case. -/
def resolveDataPointer (md : Metadata) (pointer totalSize : Nat) :
    RRes Nat :=
  if pointer < md.node_count + 16 then
    .panicked "attempt to subtract with overflow"
  else
    let resolved := pointer - md.node_count - 16
    if resolved > totalSize then
      .err (.invalidDatabaseError
        "the MaxMind DB file's search tree is corrupt")
    else .ok resolved

/-- Embeds `METADATA_START_MARKER` (lib.rs 301):
the 14 bytes `AB CD EF "MaxMind.com"`. -/
def METADATA_START_MARKER : List UInt8 :=
  [0xab, 0xcd, 0xef,
   0x4d, 0x61, 0x78, 0x4d, 0x69, 0x6e, 0x64, 0x2e, 0x63, 0x6f, 0x6d]

/-- Embeds `MARKER_LEN` (lib.rs 302). -/
def MARKER_LEN : Nat := 14

/-- The marker occurs in `buf` starting at index `i`. -/
def isMarkerAt (buf : List UInt8) (i : Nat) : Bool :=
  decide ((buf.drop i).take MARKER_LEN = METADATA_START_MARKER)

/-- Embeds `memchr::memmem::rfind(buf, METADATA_START_MARKER)`:
the index of the rightmost occurrence of the marker. -/
def rfindMarker (buf : List UInt8) : Option Nat :=
  (List.range buf.length).reverse.find? (isMarkerAt buf)

/-- Embeds `check_in_buf` (lib.rs 353-356). -/
def checkInBuf (buf : List UInt8) : Option Nat :=
  (rfindMarker buf).map (· + MARKER_LEN)

/-- Embeds `check_between` (lib.rs 341-351).  The two Rust slicings
`&current_buf[(current_buf.len() - MARKER_LEN)..]` and
`&last_buf[..MARKER_LEN]` abort when the buffer is shorter than the
marker (index out of range, after the `usize` subtraction wraps). -/
def checkBetween (lastBuf currentBuf : List UInt8) : RRes (Option Nat) :=
  if lastBuf.isEmpty then .ok none
  else if currentBuf.length < MARKER_LEN then
    .panicked "slice index out of range"
  else if lastBuf.length < MARKER_LEN then
    .panicked "slice index out of range"
  else
    let fromCurrent := currentBuf.drop (currentBuf.length - MARKER_LEN)
    let fromLast := lastBuf.take MARKER_LEN
    .ok (checkInBuf (fromCurrent ++ fromLast))

/-- Embeds `try_find_metadata` (lib.rs 331-339).  The subtraction
`chunk_size - MARKER_LEN` is reached only when `check_between` returned
`Some`, which forces `current_buf.len() = chunk_size ≥ MARKER_LEN` at
every call site, so truncated `Nat` subtraction is exact there. -/
def tryFindMetadata (start chunkSize : Nat) (currentBuf lastBuf : List UInt8) :
    RRes (Option Nat) :=
  match checkInBuf currentBuf with
  | some metaStart => .ok (some (start + metaStart))
  | none =>
    (checkBetween lastBuf currentBuf).bind fun found =>
      match found with
      | some metaStart =>
          .ok (some (start + (chunkSize - MARKER_LEN) + metaStart))
      | none => .ok none

/-- Embeds the `loop` of `find_metadata_start` (lib.rs 310-328).
The Rust loop runs until `iter.checked_sub(chunk_size)` fails; each pass
decreases `iter` by `chunk_size ≥ MARKER_LEN`, so `db.length + 1` passes
always suffice and the `fuel = 0` case is unreachable from
`find_metadata_start` (it is marked as an aborted execution so that it
can never be mistaken for a result the Rust code produces).  In the final
pass the Rust code reads `iter - 1` bytes (an unchecked subtraction that
aborts when `iter = 0`), except that it reads all `iter` bytes when no
chunk has been taken yet (`iter == total_size`). -/
def findMetadataStartLoop (db : List UInt8) (extra : Nat) :
    Nat → List UInt8 → Nat → RRes Nat
  | _, _, 0 => .panicked "unreachable: loop fuel exhausted"
  | iter, lastBuf, fuel + 1 =>
    let chunkSize := extra + MARKER_LEN
    if chunkSize ≤ iter then
      let start := iter - chunkSize
      (sourceReadAt db start chunkSize).bind fun currentBuf =>
        (tryFindMetadata start chunkSize currentBuf lastBuf).bind fun found =>
          match found with
          | some metaStart => .ok metaStart
          | none =>
              findMetadataStartLoop db extra (iter - chunkSize)
                (currentBuf.take MARKER_LEN) fuel
    else
      if iter = db.length then
        (sourceReadAt db 0 iter).bind fun currentBuf =>
          (tryFindMetadata 0 iter currentBuf lastBuf).bind fun found =>
            match found with
            | some metaStart => .ok metaStart
            | none => .err (.invalidDatabaseError
                "Could not find MaxMind DB metadata in file.")
      else if iter = 0 then .panicked "attempt to subtract with overflow"
      else
        (sourceReadAt db 0 (iter - 1)).bind fun currentBuf =>
          (tryFindMetadata 0 (iter - 1) currentBuf lastBuf).bind fun found =>
            match found with
            | some metaStart => .ok metaStart
            | none => .err (.invalidDatabaseError
                "Could not find MaxMind DB metadata in file.")

/-- Embeds `find_metadata_start` (lib.rs 305-329): reverse chunked scan
with `chunk_size = usize::max(chunk_size, MARKER_LEN)`, written as
`extra + MARKER_LEN` so the chunk size is positive by construction. -/
def find_metadata_start (db : List UInt8) (chunkSize : Nat) : RRes Nat :=
  findMetadataStartLoop db (max chunkSize MARKER_LEN - MARKER_LEN)
    db.length [] (db.length + 1)

/-- Embeds the `for size_mult in 1..usize::MAX` loop of
`try_decode_increasing_buffer` (lib.rs 367-377).  `fuel` counts the
iterations the Rust `for` has left (`usize::MAX - 1` at entry); when the
range is exhausted the Rust function falls through to `Ok(None)`. -/
def tryDecodeLoop {O : Type} (db : List UInt8) (startPos recOffset : Nat)
    (f : List UInt8 → Option O) : Nat → Nat → RRes (Option O)
  | _, 0 => .ok none
  | mult, fuel + 1 =>
    let maxSize := db.length - startPos
    if recOffset + mult * 1024 > maxSize then
      (sourceReadAt db startPos maxSize).bind fun buf => .ok (f buf)
    else
      (sourceReadAt db startPos (recOffset + mult * 1024)).bind fun buf =>
        match f buf with
        | some out => .ok (some out)
        | none => tryDecodeLoop db startPos recOffset f (mult + 1) fuel

/-- Embeds `try_decode_increasing_buffer` (lib.rs 358-379).  `startPos` is
the cursor position at entry (`source.position()`); the subtraction
`total_size - start_position` aborts when the cursor sits past the end of
the file.  The decoding closure `f` is abstract: the crate's
`decoder::Decoder` module is not part of the sources under review, and
`f buf` stands for `T::deserialize(&mut Decoder::new(buf, rec)).ok()` —
note the `.ok()`: any decoder error is discarded into `None`. -/
def tryDecodeIncreasingBuffer {O : Type} (db : List UInt8)
    (startPos recOffset : Nat) (f : List UInt8 → Option O) :
    RRes (Option O) :=
  if db.length < startPos then .panicked "attempt to subtract with overflow"
  else tryDecodeLoop db startPos recOffset f 1 (2 ^ 64 - 2)

/-- Embeds `Reader::lookup_prefix` (lib.rs 163-186).  The generic
deserializer for `T` is abstract (the `decoder` module is absent from the
sources): `deserialize buf recOffset` models
`T::deserialize(&mut decoder::Decoder::new(buf, rec)).ok()`, and
`typeName` models `std::any::type_name::<T>()`. -/
def lookup_prefix_len {T : Type} (db : List UInt8) (r : Reader)
    (deserialize : List UInt8 → Nat → Option T) (typeName : String)
    (address : IpAddr) : RRes (T × Nat) :=
  let ipBytes := ipToBytes address
  (findAddressInTree db r.metadata r.ipv4Start ipBytes).bind fun pp =>
    if pp.1 = 0 then
      .err (.addressNotFoundError "Address not found in database")
    else
      (resolveDataPointer r.metadata pp.1 db.length).bind fun recOffset =>
        (tryDecodeIncreasingBuffer db r.pointerBase recOffset
            (fun buf => (deserialize buf recOffset).map
              (fun v => (v, pp.2)))).bind fun out =>
          match out with
          | some vp => .ok vp
          | none => .err (.decodingError ("Error decoding " ++ typeName))

/-- Embeds `Reader::lookup` (lib.rs 141-146). -/
def lookup {T : Type} (db : List UInt8) (r : Reader)
    (deserialize : List UInt8 → Nat → Option T) (typeName : String)
    (address : IpAddr) : RRes T :=
  (lookup_prefix_len db r deserialize typeName address).bind fun vp =>
    .ok vp.1

/-- Embeds `Reader::from_source` (lib.rs 97-124), with the metadata
deserializer abstract (`decodeMeta buf` models
`Metadata::deserialize(&mut decoder::Decoder::new(buf, 0)).ok()`); the
`CHUNK` constant is `1024 * 1024` (lib.rs 101). -/
def from_source (db : List UInt8)
    (decodeMeta : List UInt8 → Option Metadata) : RRes Reader :=
  (find_metadata_start db (1024 * 1024)).bind fun metadataStart =>
    (tryDecodeIncreasingBuffer db metadataStart 0 decodeMeta).bind fun mdOpt =>
      match mdOpt with
      | none => .err (.decodingError "Couldn't decode Metadata")
      | some metadata =>
        let searchTreeSize := metadata.node_count * metadata.record_size / 4
        (findIpv4Start db metadata).bind fun ipv4 =>
          .ok { metadata := metadata,
                pointerBase := searchTreeSize + 16,
                ipv4Start := ipv4 }

/-- One `lookup` call with the `Reader` state threaded explicitly: the
Rust method takes `&self` (a shared, immutable borrow), so the call
returns the reader unchanged alongside its result. -/
def lookupStep {T : Type} (db : List UInt8)
    (deserialize : List UInt8 → Nat → Option T) (typeName : String)
    (address : IpAddr) (r : Reader) : RRes T × Reader :=
  (lookup db r deserialize typeName address, r)

/-! Specification-side definitions, written from the spec's words, to be
compared with the embedded code. -/

/-- Spec: big-endian u24 read at byte offset `o`. -/
def beU24 (db : List UInt8) (o : Nat) : Nat :=
  ((db.getD o 0).toNat <<< 16) ||| ((db.getD (o + 1) 0).toNat <<< 8) |||
    (db.getD (o + 2) 0).toNat

/-- Spec: big-endian u32 read at byte offset `o`. -/
def beU32 (db : List UInt8) (o : Nat) : Nat :=
  ((db.getD o 0).toNat <<< 24) ||| ((db.getD (o + 1) 0).toNat <<< 16) |||
    ((db.getD (o + 2) 0).toNat <<< 8) ||| (db.getD (o + 3) 0).toNat

/-- Spec: one step of the `ipv4_start` computation — "walking left (bit 0)
from node 0 …, stopping as soon as `node >= node_count`": a step leaves a
node that already left the node range (or an error) untouched and
otherwise follows the left (index 0) record. -/
def ipv4LeftStep (db : List UInt8) (md : Metadata) (x : RRes Nat) :
    RRes Nat :=
  x.bind fun node =>
    if node ≥ md.node_count then .ok node else readNode db md node 0

/-! Concrete inputs used by witnesses and counterexamples. -/

/-- A 24-bit, IPv4, two-node metadata record for concrete runs. -/
def mdW : Metadata := ⟨2, 0, 0, "Test", [], 4, [], 2, 24⟩

/-- The same tree geometry as `mdW` but declared `ip_version = 6`. -/
def mdW6 : Metadata := ⟨2, 0, 0, "Test", [], 6, [], 2, 24⟩

/-- Two 24-bit nodes: node 0 = (1, 2), node 1 = (25, 2); value 2 is the
node count (miss) and 25 is a data pointer. -/
def dbW : List UInt8 := [0, 0, 1, 0, 0, 2, 0, 0, 25, 0, 0, 2]

/-- A one-node, 24-bit, IPv4 metadata record. -/
def mdOne : Metadata := ⟨2, 0, 0, "Test", [], 4, [], 1, 24⟩

/-- One 24-bit node whose both records hold the node count 1 (miss). -/
def dbOne : List UInt8 := [0, 0, 1, 0, 0, 1]

/-- Reader over `dbOne`: `pointer_base = 1 * 24 / 4 + 16 = 22`. -/
def rOne : Reader := ⟨mdOne, 0, 22⟩

/-- The IPv6 address `2001:220::` as octets. -/
def addr6 : IpAddr := .v6 0x20 0x01 0x02 0x20 0 0 0 0 0 0 0 0 0 0 0 0

/-- A 31-byte file: one junk byte, the metadata marker (ending at
offset 15), then 16 junk bytes. -/
def db31 : List UInt8 := [0x00] ++ METADATA_START_MARKER ++ List.replicate 16 0x00

/-- A metadata record violating the accepted-database invariants:
`record_size = 23` and (with `ip_version = 4`) nothing rejects it. -/
def mdBad : Metadata := ⟨2, 0, 0, "Test", [], 4, [], 0, 23⟩

/-! Helper lemmas. -/

/-- Every error an outcome can carry satisfies `P` (values and aborted
executions satisfy it vacuously). -/
def ErrsIn {α : Type} (P : MaxMindDBError → Prop) : RRes α → Prop
  | .ok _ => True
  | .err e => P e
  | .panicked _ => True

theorem errsIn_bind {α β : Type} {P : MaxMindDBError → Prop} {x : RRes α}
    {f : α → RRes β} (hx : ErrsIn P x) (hf : ∀ a, ErrsIn P (f a)) :
    ErrsIn P (x.bind f) := by
  cases x with
  | ok a => exact hf a
  | err e => exact hx
  | panicked m => trivial

theorem errsIn_mono {α : Type} {P Q : MaxMindDBError → Prop}
    (h : ∀ e, P e → Q e) {x : RRes α} (hx : ErrsIn P x) : ErrsIn Q x := by
  cases x with
  | ok a => trivial
  | err e => exact h e hx
  | panicked m => trivial

/-- The error is an I/O error. -/
def IsIoErr : MaxMindDBError → Prop
  | .ioError _ => True
  | _ => False

theorem sourceReadAt_errs {P : MaxMindDBError → Prop}
    (h : ∀ m, P (.ioError m)) (db : List UInt8) (start len : Nat) :
    ErrsIn P (sourceReadAt db start len) := by
  unfold sourceReadAt
  split
  · trivial
  · exact h _

theorem sourceReadOne_errs {P : MaxMindDBError → Prop}
    (h : ∀ m, P (.ioError m)) (db : List UInt8) (start : Nat) :
    ErrsIn P (sourceReadOne db start) :=
  errsIn_bind (sourceReadAt_errs h db start 1) (fun _ => trivial)

theorem readNode_errs {P : MaxMindDBError → Prop}
    (hio : ∀ m, P (.ioError m)) {md : Metadata}
    (hur : P (.invalidDatabaseError (unknownRecordSizeMsg md.record_size)))
    (db : List UInt8) (k idx : Nat) :
    ErrsIn P (readNode db md k idx) := by
  unfold readNode
  split
  · exact errsIn_bind (sourceReadAt_errs hio db _ _) (fun _ => trivial)
  · split
    · exact errsIn_bind (sourceReadOne_errs hio db _) (fun _ =>
        errsIn_bind (sourceReadAt_errs hio db _ _) (fun _ => trivial))
    · split
      · exact errsIn_bind (sourceReadAt_errs hio db _ _) (fun _ => trivial)
      · exact hur

theorem treeWalkLoop_errs {P : MaxMindDBError → Prop}
    (hio : ∀ m, P (.ioError m)) {md : Metadata}
    (hur : P (.invalidDatabaseError (unknownRecordSizeMsg md.record_size)))
    (db : List UInt8) (ip : List UInt8) :
    ∀ rest node i, ErrsIn P (treeWalkLoop db md ip node i rest) := by
  intro rest
  induction rest with
  | zero => intro node i; trivial
  | succ n ih =>
    intro node i
    unfold treeWalkLoop
    split
    · trivial
    · exact errsIn_bind (readNode_errs hio hur db _ _) (fun a => ih a (i + 1))

theorem findAddressInTree_errs {P : MaxMindDBError → Prop}
    (hio : ∀ m, P (.ioError m)) {md : Metadata}
    (hur : P (.invalidDatabaseError (unknownRecordSizeMsg md.record_size)))
    (hin : P (.invalidDatabaseError "invalid node in search tree"))
    (db : List UInt8) (ipv4Start : Nat) (ip : List UInt8) :
    ErrsIn P (findAddressInTree db md ipv4Start ip) := by
  unfold findAddressInTree
  refine errsIn_bind (treeWalkLoop_errs hio hur db ip _ _ _) (fun np => ?_)
  split
  · trivial
  · split
    · trivial
    · exact hin

theorem resolveDataPointer_errs {P : MaxMindDBError → Prop}
    (hc : P (.invalidDatabaseError
      "the MaxMind DB file's search tree is corrupt"))
    (md : Metadata) (pointer totalSize : Nat) :
    ErrsIn P (resolveDataPointer md pointer totalSize) := by
  unfold resolveDataPointer
  split
  · trivial
  · dsimp only
    split
    · exact hc
    · trivial

theorem tryDecodeLoop_errs {O : Type} {P : MaxMindDBError → Prop}
    (hio : ∀ m, P (.ioError m)) (db : List UInt8) (startPos recOffset : Nat)
    (f : List UInt8 → Option O) :
    ∀ fuel mult, ErrsIn P (tryDecodeLoop db startPos recOffset f mult fuel) := by
  intro fuel
  induction fuel with
  | zero => intro mult; trivial
  | succ n ih =>
    intro mult
    unfold tryDecodeLoop
    dsimp only
    split
    · exact errsIn_bind (sourceReadAt_errs hio db _ _) (fun _ => trivial)
    · refine errsIn_bind (sourceReadAt_errs hio db _ _) (fun buf => ?_)
      split
      · trivial
      · exact ih (mult + 1)

theorem tryDecodeIncreasingBuffer_errs {O : Type} {P : MaxMindDBError → Prop}
    (hio : ∀ m, P (.ioError m)) (db : List UInt8) (startPos recOffset : Nat)
    (f : List UInt8 → Option O) :
    ErrsIn P (tryDecodeIncreasingBuffer db startPos recOffset f) := by
  unfold tryDecodeIncreasingBuffer
  split
  · trivial
  · exact tryDecodeLoop_errs hio db startPos recOffset f _ 1

/-- The set of errors a `lookup` / `lookup_prefix` call can return:
address-not-found, the three tree-level database corruptions, an I/O
error, or the generic decoding failure carrying only the target type's
name.  In particular no `InvalidNetwork` error and no decoder-produced
message is ever returned. -/
def LookupErr (typeName : String) (recordSize : Nat) :
    MaxMindDBError → Prop
  | .addressNotFoundError m => m = "Address not found in database"
  | .invalidDatabaseError m =>
      m = "invalid node in search tree" ∨
      m = "the MaxMind DB file's search tree is corrupt" ∨
      m = unknownRecordSizeMsg recordSize
  | .ioError _ => True
  | .decodingError m => m = "Error decoding " ++ typeName
  | .mapError _ => False
  | .invalidNetworkError _ => False

theorem lookup_prefix_len_errs {T : Type} (db : List UInt8) (r : Reader)
    (deserialize : List UInt8 → Nat → Option T) (typeName : String)
    (address : IpAddr) :
    ErrsIn (LookupErr typeName r.metadata.record_size)
      (lookup_prefix_len db r deserialize typeName address) := by
  unfold lookup_prefix_len
  refine errsIn_bind
    (findAddressInTree_errs (fun m => trivial) (Or.inr (Or.inr rfl))
      (Or.inl rfl) db r.ipv4Start _) (fun pp => ?_)
  split
  · exact rfl
  · refine errsIn_bind
      (resolveDataPointer_errs (Or.inr (Or.inl rfl)) r.metadata pp.1 db.length)
      (fun recOffset => ?_)
    refine errsIn_bind
      (tryDecodeIncreasingBuffer_errs (fun m => trivial) db r.pointerBase
        recOffset _) (fun out => ?_)
    split
    · trivial
    · exact rfl

theorem lookup_errs {T : Type} (db : List UInt8) (r : Reader)
    (deserialize : List UInt8 → Nat → Option T) (typeName : String)
    (address : IpAddr) :
    ErrsIn (LookupErr typeName r.metadata.record_size)
      (lookup db r deserialize typeName address) :=
  errsIn_bind (lookup_prefix_len_errs db r deserialize typeName address)
    (fun _ => trivial)

theorem or_shiftLeft_distrib (x y k : Nat) :
    (x ||| y) <<< k = x <<< k ||| y <<< k := by
  apply Nat.eq_of_testBit_eq
  intro i
  by_cases h : k ≤ i <;> simp [Nat.testBit_shiftLeft, Nat.testBit_or, h]

theorem to_usize_three (m b0 b1 b2 : UInt8) :
    to_usize m [b0, b1, b2] =
      (((m.toNat <<< 24) ||| (b0.toNat <<< 16)) ||| (b1.toNat <<< 8)) |||
        b2.toNat := by
  simp only [to_usize, List.foldl]
  rw [or_shiftLeft_distrib, or_shiftLeft_distrib, or_shiftLeft_distrib,
    Nat.shiftLeft_shiftLeft, Nat.shiftLeft_shiftLeft, Nat.shiftLeft_shiftLeft]

theorem to_usize_zero_three (b0 b1 b2 : UInt8) :
    to_usize 0 [b0, b1, b2] =
      ((b0.toNat <<< 16) ||| (b1.toNat <<< 8)) ||| b2.toNat := by
  rw [show (0 : UInt8) = ⟨0⟩ from rfl] at *
  rw [to_usize_three]
  simp [Nat.zero_shiftLeft, Nat.zero_or]

theorem to_usize_zero_four (b0 b1 b2 b3 : UInt8) :
    to_usize 0 [b0, b1, b2, b3] =
      (((b0.toNat <<< 24) ||| (b1.toNat <<< 16)) ||| (b2.toNat <<< 8)) |||
        b3.toNat := by
  simp only [to_usize, List.foldl]
  rw [or_shiftLeft_distrib, or_shiftLeft_distrib, or_shiftLeft_distrib,
    or_shiftLeft_distrib, or_shiftLeft_distrib, or_shiftLeft_distrib,
    Nat.shiftLeft_shiftLeft, Nat.shiftLeft_shiftLeft,
    Nat.shiftLeft_shiftLeft, Nat.shiftLeft_shiftLeft,
    Nat.shiftLeft_shiftLeft, Nat.shiftLeft_shiftLeft]
  simp [Nat.zero_shiftLeft, Nat.zero_or]

theorem getD_of_lt (l : List UInt8) (n : Nat) (h : n < l.length) :
    l.getD n 0 = l[n] := by
  rw [List.getD_eq_getElem?_getD, List.getElem?_eq_getElem h]
  rfl

theorem drop_take_one (l : List UInt8) (o : Nat) (h : o + 1 ≤ l.length) :
    (l.drop o).take 1 = [l.getD o 0] := by
  rw [List.drop_eq_getElem_cons (show o < l.length by omega),
    getD_of_lt l o (by omega)]
  rfl

theorem uint8_shiftRight_four_toNat (x : UInt8) :
    (x >>> 4).toNat = x.toNat >>> 4 := by
  show (x.toBitVec >>> ((4 : UInt8).mod 8).toBitVec).toNat =
    x.toBitVec.toNat >>> 4
  rw [show ((4 : UInt8).mod 8).toBitVec = (4 : BitVec 8) from rfl]
  simp

theorem and_240_shiftRight_four (x : Nat) (hx : x < 256) :
    (240 &&& x) >>> 4 = x >>> 4 := by
  apply Nat.eq_of_testBit_eq
  intro i
  rw [Nat.testBit_shiftRight, Nat.testBit_shiftRight, Nat.testBit_and]
  by_cases h : i < 4
  · have h240 : Nat.testBit 240 (4 + i) = true := by
      interval_cases i <;> decide
    rw [h240, Bool.true_and]
  · have hx8 : Nat.testBit x (4 + i) = false := by
      apply Nat.testBit_lt_two_pow
      calc x < 256 := hx
        _ ≤ 2 ^ (4 + i) := by
          rw [show (256 : Nat) = 2 ^ 8 from rfl]
          exact Nat.pow_le_pow_right (by omega) (by omega)
    rw [hx8, Bool.and_false]

/-- The high-nibble extraction `(0xF0 & middle) >> 4` the 28-bit case
performs on a byte equals the spec's `middle >> 4`. -/
theorem hi_nibble_toNat (m : UInt8) :
    ((0xF0 &&& m) >>> 4).toNat = m.toNat >>> 4 := by
  rw [uint8_shiftRight_four_toNat, UInt8.and_toNat]
  exact and_240_shiftRight_four m.toNat m.toNat_lt

theorem drop_take_three (l : List UInt8) (o : Nat) (h : o + 3 ≤ l.length) :
    (l.drop o).take 3 = [l.getD o 0, l.getD (o + 1) 0, l.getD (o + 2) 0] := by
  rw [List.drop_eq_getElem_cons (show o < l.length by omega),
    List.drop_eq_getElem_cons (show o + 1 < l.length by omega),
    List.drop_eq_getElem_cons (show o + 2 < l.length by omega),
    getD_of_lt l o (by omega), getD_of_lt l (o + 1) (by omega),
    getD_of_lt l (o + 2) (by omega)]
  rfl

theorem drop_take_four (l : List UInt8) (o : Nat) (h : o + 4 ≤ l.length) :
    (l.drop o).take 4 =
      [l.getD o 0, l.getD (o + 1) 0, l.getD (o + 2) 0, l.getD (o + 3) 0] := by
  rw [List.drop_eq_getElem_cons (show o < l.length by omega),
    List.drop_eq_getElem_cons (show o + 1 < l.length by omega),
    List.drop_eq_getElem_cons (show o + 2 < l.length by omega),
    List.drop_eq_getElem_cons (show o + 3 < l.length by omega),
    getD_of_lt l o (by omega), getD_of_lt l (o + 1) (by omega),
    getD_of_lt l (o + 2) (by omega), getD_of_lt l (o + 3) (by omega)]
  rfl

/-- Loop invariant of the `find_address_in_tree` walk: with `i + rest`
bits budgeted against `bit_count = ip.length * 8`, a normally returned
`(node, prefix_len)` has `prefix_len ≤ bit_count`, and whenever the final
node is still a plain node index (`< node_count`) the loop must have
consumed every bit, so `prefix_len = bit_count`. -/
theorem treeWalkLoop_ok_bounds (db : List UInt8) (md : Metadata)
    (ip : List UInt8) :
    ∀ rest node i n p, treeWalkLoop db md ip node i rest = .ok (n, p) →
      i + rest ≤ ip.length * 8 →
      p ≤ ip.length * 8 ∧ (n < md.node_count → p = ip.length * 8) := by
  intro rest
  induction rest with
  | zero =>
    intro node i n p heq _
    unfold treeWalkLoop at heq
    injection heq with hpair
    injection hpair with hn hp
    omega
  | succ k ih =>
    intro node i n p heq hle
    unfold treeWalkLoop at heq
    split at heq
    · injection heq with hpair
      injection hpair with hn hp
      constructor
      · omega
      · intro hlt
        omega
    · rename_i hnode
      dsimp only at heq
      rcases hr : readNode db md node
          (1 &&& ((ip.getD (i >>> 3) 0).toNat >>> (7 - i % 8))) with
        _ | _ | _ <;> rw [hr] at heq
      · exact ih _ (i + 1) n p heq (by omega)
      · simp [RRes.bind] at heq
      · simp [RRes.bind] at heq

theorem ipv4LeftStep_iterate_err (db : List UInt8) (md : Metadata)
    (e : MaxMindDBError) : ∀ k, (ipv4LeftStep db md)^[k] (.err e) = .err e := by
  intro k
  induction k with
  | zero => rfl
  | succ n ih => rw [Function.iterate_succ_apply]; exact ih

theorem ipv4LeftStep_iterate_panic (db : List UInt8) (md : Metadata)
    (m : String) :
    ∀ k, (ipv4LeftStep db md)^[k] (.panicked m) = .panicked m := by
  intro k
  induction k with
  | zero => rfl
  | succ n ih => rw [Function.iterate_succ_apply]; exact ih

theorem ipv4LeftStep_iterate_fix (db : List UInt8) (md : Metadata)
    (node : Nat) (h : node ≥ md.node_count) :
    ∀ k, (ipv4LeftStep db md)^[k] (.ok node) = .ok node := by
  intro k
  induction k with
  | zero => rfl
  | succ n ih =>
    rw [Function.iterate_succ_apply]
    have hstep : ipv4LeftStep db md (.ok node) = .ok node := by
      simp [ipv4LeftStep, RRes.bind, h]
    rw [hstep]
    exact ih

/-- The code's `find_ipv4_start` loop computes exactly the spec's
"up to 96 left steps, stopping as soon as `node >= node_count`"
iteration. -/
theorem findIpv4StartLoop_eq_iterate (db : List UInt8) (md : Metadata) :
    ∀ k node,
      findIpv4StartLoop db md node k = (ipv4LeftStep db md)^[k] (.ok node) := by
  intro k
  induction k with
  | zero => intro node; rfl
  | succ n ih =>
    intro node
    rw [Function.iterate_succ_apply]
    unfold findIpv4StartLoop
    have hstep : ipv4LeftStep db md (.ok node) =
        if node ≥ md.node_count then .ok node else readNode db md node 0 := by
      simp [ipv4LeftStep, RRes.bind]
    rw [hstep]
    split
    · rename_i h
      exact (ipv4LeftStep_iterate_fix db md node h n).symm
    · rcases hr : readNode db md node 0 with a | e | m
      · simp only [RRes.bind]
        exact ih a
      · simp only [RRes.bind]
        exact (ipv4LeftStep_iterate_err db md e n).symm
      · simp only [RRes.bind]
        exact (ipv4LeftStep_iterate_panic db md m n).symm

/-- `format!("unknown record size: {:?}", s)` never produces the broken
double-format diagnostic: the prefix alone is longer than the whole
target message. -/
theorem unknownRecordSizeMsg_ne_broken (s : Nat) :
    unknownRecordSizeMsg s ≠ "double of size 2" := by
  intro h
  have hl := congrArg String.length h
  rw [unknownRecordSizeMsg, String.length_append] at hl
  have h1 : ("unknown record size: " : String).length = 21 := by decide
  have h2 : ("double of size 2" : String).length = 16 := by decide
  omega

/-! Claim theorems. -/

/-- C1: for every IP byte sequence, when the tree walk's loop normally
yields a final record value `n` with consumed-prefix `p`,
`find_address_in_tree` returns `(0, p)` if `n` equals the node count,
returns `(n, p)` if `n` exceeds it, and fails with
`InvalidDatabase("invalid node in search tree")` if `n` is below it — in
which case the walk consumed all the bits (`p = bit_count`); in every
case `0 ≤ p ≤ 8 · len(ip_bytes)` (32 for IPv4, 128 for IPv6 queries). -/
theorem claim_C1_tree_walk_classification (db : List UInt8) (md : Metadata)
    (ipv4Start : Nat) (ip : List UInt8) (n p : Nat)
    (hwalk : treeWalkLoop db md ip (startNode ipv4Start (ip.length * 8)) 0
      (ip.length * 8) = .ok (n, p)) :
    (n = md.node_count →
      findAddressInTree db md ipv4Start ip = .ok (0, p)) ∧
    (n > md.node_count →
      findAddressInTree db md ipv4Start ip = .ok (n, p)) ∧
    (n < md.node_count → p = ip.length * 8 ∧
      findAddressInTree db md ipv4Start ip =
        .err (.invalidDatabaseError "invalid node in search tree")) ∧
    p ≤ 8 * ip.length := by
  have hb := treeWalkLoop_ok_bounds db md ip (ip.length * 8)
    (startNode ipv4Start (ip.length * 8)) 0 n p hwalk (by omega)
  refine ⟨?_, ?_, ?_, by omega⟩
  · intro he
    unfold findAddressInTree
    rw [hwalk]
    simp only [RRes.bind]
    rw [if_pos (by omega)]
  · intro hgt
    unfold findAddressInTree
    rw [hwalk]
    simp only [RRes.bind]
    rw [if_neg (by omega : ¬ md.node_count = (n, p).1), if_pos hgt]
  · intro hlt
    refine ⟨hb.2 hlt, ?_⟩
    unfold findAddressInTree
    rw [hwalk]
    simp only [RRes.bind]
    rw [if_neg (by omega : ¬ md.node_count = (n, p).1),
      if_neg (by omega : ¬ (n, p).1 > md.node_count)]

/-- Witness for C1 on a concrete two-node 24-bit tree: looking up
`0.0.0.0` walks two left records, ends on the data value 25 > 2 =
node count, and the classification and prefix bound follow from
`claim_C1_tree_walk_classification`. -/
theorem claim_C1_witness :
    findAddressInTree dbW mdW 0 (ipToBytes (.v4 0 0 0 0)) = .ok (25, 2) ∧
    2 ≤ 8 * (ipToBytes (.v4 0 0 0 0)).length := by
  have hwalk : treeWalkLoop dbW mdW (ipToBytes (.v4 0 0 0 0))
      (startNode 0 ((ipToBytes (.v4 0 0 0 0)).length * 8)) 0
      ((ipToBytes (.v4 0 0 0 0)).length * 8) = .ok (25, 2) := by decide
  have h := claim_C1_tree_walk_classification dbW mdW 0
    (ipToBytes (.v4 0 0 0 0)) 25 2 hwalk
  exact ⟨h.2.1 (by decide), h.2.2.2⟩

/-- C2: for every node index `k`, child index `idx ∈ {0, 1}` and byte
source long enough for the read, `read_node` returns exactly the packed
record value of the format — 24-bit: big-endian u24 at `k*6` (left) /
`k*6+3` (right); 32-bit: big-endian u32 at `k*8` (left) / `k*8+4`
(right); 28-bit: `left = (middle >> 4) << 24 | be_u24(k*7)` and
`right = (middle & 0x0F) << 24 | be_u24(k*7+4)` with `middle` the byte at
`k*7+3`; and for any other `record_size` it fails with
`InvalidDatabase`. -/
theorem claim_C2_read_node_packing (db : List UInt8) (md : Metadata)
    (k idx : Nat) (hidx : idx = 0 ∨ idx = 1) :
    (md.record_size = 24 → k * 6 + 6 ≤ db.length →
      readNode db md k idx =
        .ok (beU24 db (if idx = 0 then k * 6 else k * 6 + 3))) ∧
    (md.record_size = 32 → k * 8 + 8 ≤ db.length →
      readNode db md k idx =
        .ok (beU32 db (if idx = 0 then k * 8 else k * 8 + 4))) ∧
    (md.record_size = 28 → k * 7 + 7 ≤ db.length →
      readNode db md k idx =
        .ok (if idx = 0 then
            (((db.getD (k * 7 + 3) 0).toNat >>> 4) <<< 24) |||
              beU24 db (k * 7)
          else
            (((db.getD (k * 7 + 3) 0).toNat &&& 0x0F) <<< 24) |||
              beU24 db (k * 7 + 4))) ∧
    (md.record_size ≠ 24 → md.record_size ≠ 28 → md.record_size ≠ 32 →
      readNode db md k idx =
        .err (.invalidDatabaseError (unknownRecordSizeMsg md.record_size))) := by
  refine ⟨?_, ?_, ?_, ?_⟩
  · intro h24 hlen
    unfold readNode
    rw [h24]
    have hbo : k * 24 / 4 = k * 6 := by omega
    rw [hbo]
    rw [if_pos rfl]
    unfold sourceReadAt
    rcases hidx with rfl | rfl
    · rw [if_pos (by omega : k * 6 + 0 * 3 + 3 ≤ db.length)]
      simp only [RRes.bind]
      rw [show k * 6 + 0 * 3 = k * 6 by omega,
        drop_take_three db (k * 6) (by omega), to_usize_zero_three]
      simp [beU24]
    · rw [if_pos (by omega : k * 6 + 1 * 3 + 3 ≤ db.length)]
      simp only [RRes.bind]
      rw [show k * 6 + 1 * 3 = k * 6 + 3 by omega,
        drop_take_three db (k * 6 + 3) (by omega), to_usize_zero_three]
      simp [beU24]
  · intro h32 hlen
    unfold readNode
    rw [h32]
    have hbo : k * 32 / 4 = k * 8 := by omega
    rw [hbo]
    rw [if_neg (by omega : ¬ (32 : Nat) = 24),
      if_neg (by omega : ¬ (32 : Nat) = 28), if_pos rfl]
    unfold sourceReadAt
    rcases hidx with rfl | rfl
    · rw [if_pos (by omega : k * 8 + 0 * 4 + 4 ≤ db.length)]
      simp only [RRes.bind]
      rw [show k * 8 + 0 * 4 = k * 8 by omega,
        drop_take_four db (k * 8) (by omega), to_usize_zero_four]
      simp [beU32]
    · rw [if_pos (by omega : k * 8 + 1 * 4 + 4 ≤ db.length)]
      simp only [RRes.bind]
      rw [show k * 8 + 1 * 4 = k * 8 + 4 by omega,
        drop_take_four db (k * 8 + 4) (by omega), to_usize_zero_four]
      simp [beU32]
  · intro h28 hlen
    unfold readNode
    rw [h28]
    have hbo : k * 28 / 4 = k * 7 := by omega
    rw [hbo]
    rw [if_neg (by omega : ¬ (28 : Nat) = 24), if_pos rfl]
    have hone : sourceReadOne db (k * 7 + 3) = .ok (db.getD (k * 7 + 3) 0) := by
      unfold sourceReadOne sourceReadAt
      rw [if_pos (by omega : k * 7 + 3 + 1 ≤ db.length)]
      simp only [RRes.bind]
      rw [drop_take_one db (k * 7 + 3) (by omega)]
      rfl
    rw [hone]
    simp only [RRes.bind]
    rcases hidx with rfl | rfl
    · rw [if_neg (by omega : ¬ (0 : Nat) ≠ 0)]
      unfold sourceReadAt
      rw [if_pos (by omega : k * 7 + 0 * 4 + 3 ≤ db.length)]
      simp only [RRes.bind]
      rw [show k * 7 + 0 * 4 = k * 7 by omega,
        drop_take_three db (k * 7) (by omega), to_usize_three,
        hi_nibble_toNat]
      simp [beU24, Nat.or_assoc]
    · rw [if_pos (by omega : (1 : Nat) ≠ 0)]
      unfold sourceReadAt
      rw [if_pos (by omega : k * 7 + 1 * 4 + 3 ≤ db.length)]
      simp only [RRes.bind]
      rw [show k * 7 + 1 * 4 = k * 7 + 4 by omega,
        drop_take_three db (k * 7 + 4) (by omega), to_usize_three,
        UInt8.and_toNat]
      simp [beU24, Nat.or_assoc, UInt8.size]
  · intro h24 h28 h32
    unfold readNode
    rw [if_neg h24, if_neg h28, if_neg h32]

/-- Witness for C2: on a concrete 12-byte tree, the right record of node
0 at 24-bit record size is the big-endian u24 at offset 3, and a record
size of 23 is rejected. -/
theorem claim_C2_witness :
    readNode dbW mdW 0 1 = .ok (beU24 dbW 3) ∧
    readNode dbW mdBad 0 0 =
      .err (.invalidDatabaseError (unknownRecordSizeMsg 23)) := by
  constructor
  · have h := (claim_C2_read_node_packing dbW mdW 0 1 (Or.inr rfl)).1
      rfl (by decide)
    simpa using h
  · exact (claim_C2_read_node_packing dbW mdBad 0 0 (Or.inl rfl)).2.2.2
      (by decide) (by decide) (by decide)

/-- C3: the claim asks `find_metadata_start` to return
`last_index_of(marker) + 14` for every chunk size `c ≥ 14`, independently
of `c`.  On the 31-byte file `db31` the marker's last occurrence starts at
index 1, so the spec answer is 15 (third conjunct; `checkInBuf` is the
whole-buffer rightmost scan): with chunk size 31 the code indeed returns
15, but with chunk size 16 the final pass reads only `iter - 1 = 14`
bytes, the byte at index 14 falls between the two inspected windows, and
the marker is reported missing. -/
theorem claim_C3_locator_divergence :
    checkInBuf db31 = some 15 ∧
    find_metadata_start db31 31 = .ok 15 ∧
    find_metadata_start db31 16 =
      .err (.invalidDatabaseError
        "Could not find MaxMind DB metadata in file.") := by
  refine ⟨by decide, by decide, by decide⟩

/-- C4 counterexample: over `dbOne`'s geometry (`node_count = 1`,
`record_size = 24`, so `pointer_base = 22`) with a 30-byte file the data
section holds `30 - 22 = 8` bytes; the tree pointer 25 yields
`data_offset = 8 ≥ 8 = data_section_size`, yet `resolve_data_pointer`
returns `Ok 8` because the code only compares against the whole file
size (and only with a strict `>`). -/
theorem claim_C4_counterexample :
    resolveDataPointer mdOne 25 30 = .ok 8 ∧
    25 - mdOne.node_count - 16 ≥
      30 - (mdOne.node_count * mdOne.record_size / 4 + 16) := by
  exact ⟨by decide, by decide⟩

/-- C4 amended: after a walk that guarantees `pointer ≥ node_count + 16`,
`resolve_data_pointer` computes `data_offset = pointer - node_count - 16`
and fails — with message `"the MaxMind DB file's search tree is
corrupt"` — exactly when `data_offset` exceeds the size of the whole
source (`total_size`), not the size of the data section. -/
theorem claim_C4_resolve_checks_total_size (md : Metadata)
    (pointer totalSize : Nat) (h : md.node_count + 16 ≤ pointer) :
    resolveDataPointer md pointer totalSize =
      if pointer - md.node_count - 16 > totalSize then
        .err (.invalidDatabaseError
          "the MaxMind DB file's search tree is corrupt")
      else .ok (pointer - md.node_count - 16) := by
  unfold resolveDataPointer
  rw [if_neg (by omega)]

/-- Witness for the amended C4: pointer 50 against a 30-byte file gives
`data_offset = 33 > 30` and the corrupt-tree error. -/
theorem claim_C4_witness :
    resolveDataPointer mdOne 50 30 =
      .err (.invalidDatabaseError
        "the MaxMind DB file's search tree is corrupt") := by
  have h := claim_C4_resolve_checks_total_size mdOne 50 30 (by decide)
  rw [h]
  decide

/-- C10: under the precondition `pointer ≥ node_count + 16` the
subtraction `pointer - node_count - 16` never underflows (the call cannot
abort); but the tree walk only guarantees `pointer > node_count`, and for
every record value `v` with `node_count < v < node_count + 16` the
unguarded `usize` subtraction underflows (aborting the lookup) instead of
returning an `InvalidDatabase` error. -/
theorem claim_C10_resolve_underflow (md : Metadata)
    (pointer totalSize v : Nat) :
    (md.node_count + 16 ≤ pointer →
      ∀ m, resolveDataPointer md pointer totalSize ≠ .panicked m) ∧
    (md.node_count < v → v < md.node_count + 16 →
      resolveDataPointer md v totalSize =
        .panicked "attempt to subtract with overflow" ∧
      ∀ msg, resolveDataPointer md v totalSize ≠
        .err (.invalidDatabaseError msg)) := by
  constructor
  · intro h m
    unfold resolveDataPointer
    rw [if_neg (by omega)]
    dsimp only
    split
    · exact fun hc => RRes.noConfusion hc
    · exact fun hc => RRes.noConfusion hc
  · intro h1 h2
    unfold resolveDataPointer
    rw [if_pos (by omega)]
    exact ⟨rfl, fun msg hc => RRes.noConfusion hc⟩

/-- Witness for C10: with `node_count = 1`, the value 16 (strictly
between 1 and 17) aborts, while the value 40 (≥ 17) does not. -/
theorem claim_C10_witness :
    resolveDataPointer mdOne 16 30 =
      .panicked "attempt to subtract with overflow" ∧
    resolveDataPointer mdOne 40 30 ≠
      .panicked "attempt to subtract with overflow" :=
  ⟨((claim_C10_resolve_underflow mdOne 40 30 16).2 (by decide) (by decide)).1,
   (claim_C10_resolve_underflow mdOne 40 30 16).1 (by decide)
     "attempt to subtract with overflow"⟩

/-- C5 counterexample: `rOne` is a reader over an `ip_version = 4`
database, and a 16-byte (IPv6) lookup does NOT fail with
`InvalidNetwork("IPv6 query against IPv4 database")` — the walk simply
runs from node 0 and here ends in `AddressNotFound`. -/
theorem claim_C5_counterexample :
    rOne.metadata.ip_version = 4 ∧
    lookup_prefix_len dbOne rOne (fun _ _ => (none : Option Unit)) "T" addr6 =
      .err (.addressNotFoundError "Address not found in database") ∧
    lookup_prefix_len dbOne rOne (fun _ _ => (none : Option Unit)) "T" addr6 ≠
      .err (.invalidNetworkError "IPv6 query against IPv4 database") := by
  refine ⟨rfl, by decide, by decide⟩

/-- C5 amended: `lookup_prefix` never returns an `InvalidNetwork` error
for any query (the `ip_version` check the spec asks for does not exist in
the code — a 16-byte query against an `ip_version = 4` database just
walks the tree from node 0); a 4-byte query does start the walk at
`ipv4_start`, as the claim's second half states. -/
theorem claim_C5_no_invalid_network {T : Type} (db : List UInt8) (r : Reader)
    (deserialize : List UInt8 → Nat → Option T) (typeName : String)
    (address : IpAddr) :
    (∀ m, lookup_prefix_len db r deserialize typeName address ≠
      .err (.invalidNetworkError m)) ∧
    (∀ s (a b c d : UInt8),
      startNode s ((ipToBytes (.v4 a b c d)).length * 8) = s) := by
  constructor
  · intro m hc
    have h := lookup_prefix_len_errs db r deserialize typeName address
    rw [hc] at h
    exact h
  · intro s a b c d
    rfl

/-- Witness for the amended C5 at a concrete database and query. -/
theorem claim_C5_witness :
    lookup_prefix_len dbOne rOne (fun _ _ => (none : Option Unit)) "T" addr6 ≠
      .err (.invalidNetworkError "IPv6 query against IPv4 database") ∧
    startNode 7 ((ipToBytes (.v4 1 2 3 4)).length * 8) = 7 :=
  ⟨(claim_C5_no_invalid_network dbOne rOne (fun _ _ => (none : Option Unit))
      "T" addr6).1 "IPv6 query against IPv4 database",
   (claim_C5_no_invalid_network dbOne rOne (fun _ _ => (none : Option Unit))
      "T" addr6).2 7 1 2 3 4⟩

/-- C6: no lookup can ever surface a decoder diagnostic such as
`InvalidDatabase("double of size 2")`: `lookup_prefix` runs the
deserializer through `try_decode_increasing_buffer` behind `.ok()`, which
discards every decoder error, and the only failure it reports in their
place is the generic `DecodingError("Error decoding <T>")`.  This holds
for every database, reader state, deserializer and address, so the
repository's own `test_broken_database` expectation — that looking up
`2001:220::` in `GeoIP2-City-Test-Broken-Double-Format.mmdb` yields
`InvalidDatabaseError("double of size 2")` — is unsatisfiable. -/
theorem claim_C6_decoder_errors_swallowed {T : Type} (db : List UInt8)
    (r : Reader) (deserialize : List UInt8 → Nat → Option T)
    (typeName : String) (address : IpAddr) :
    lookup db r deserialize typeName address ≠
      .err (.invalidDatabaseError "double of size 2") ∧
    lookup_prefix_len db r deserialize typeName address ≠
      .err (.invalidDatabaseError "double of size 2") := by
  constructor
  · intro hc
    have h := lookup_errs db r deserialize typeName address
    rw [hc] at h
    have h2 : "double of size 2" = "invalid node in search tree" ∨
        "double of size 2" = "the MaxMind DB file's search tree is corrupt" ∨
        "double of size 2" = unknownRecordSizeMsg r.metadata.record_size := h
    rcases h2 with h2 | h2 | h2
    · exact absurd h2 (by decide)
    · exact absurd h2 (by decide)
    · exact unknownRecordSizeMsg_ne_broken _ h2.symm
  · intro hc
    have h := lookup_prefix_len_errs db r deserialize typeName address
    rw [hc] at h
    have h2 : "double of size 2" = "invalid node in search tree" ∨
        "double of size 2" = "the MaxMind DB file's search tree is corrupt" ∨
        "double of size 2" = unknownRecordSizeMsg r.metadata.record_size := h
    rcases h2 with h2 | h2 | h2
    · exact absurd h2 (by decide)
    · exact absurd h2 (by decide)
    · exact unknownRecordSizeMsg_ne_broken _ h2.symm

/-- Witness for C6 at a concrete database and query. -/
theorem claim_C6_witness :
    lookup dbOne rOne (fun _ _ => (none : Option Unit)) "TestType" addr6 ≠
      .err (.invalidDatabaseError "double of size 2") :=
  (claim_C6_decoder_errors_swallowed dbOne rOne
    (fun _ _ => (none : Option Unit)) "TestType" addr6).1

/-- C8: at construction, when `ip_version = 6` the stored `ipv4_start` is
the node reached from node 0 by up to 96 left steps that stop as soon as
the node value leaves the node range (the spec-side `ipv4LeftStep`
iteration), and when `ip_version = 4` it is 0; a 128-bit lookup starts
the walk at node 0 and a 32-bit lookup starts it at `ipv4_start`. -/
theorem claim_C8_ipv4_start (db : List UInt8) (md : Metadata) (s : Nat) :
    (md.ip_version = 6 →
      findIpv4Start db md = (ipv4LeftStep db md)^[96] (.ok 0)) ∧
    (md.ip_version = 4 → findIpv4Start db md = .ok 0) ∧
    startNode s 128 = 0 ∧
    (∀ a b c d : UInt8,
      startNode s ((ipToBytes (.v4 a b c d)).length * 8) = s) ∧
    (∀ q1 q2 q3 q4 q5 q6 q7 q8 q9 q10 q11 q12 q13 q14 q15 q16 : UInt8,
      startNode s ((ipToBytes
        (.v6 q1 q2 q3 q4 q5 q6 q7 q8 q9 q10 q11 q12 q13 q14 q15 q16)).length
          * 8) = 0) := by
  refine ⟨?_, ?_, rfl, ?_, ?_⟩
  · intro h6
    unfold findIpv4Start
    rw [if_neg (by omega)]
    exact findIpv4StartLoop_eq_iterate db md 96 0
  · intro h4
    unfold findIpv4Start
    rw [if_pos (by omega)]
  · intro a b c d
    rfl
  · intro q1 q2 q3 q4 q5 q6 q7 q8 q9 q10 q11 q12 q13 q14 q15 q16
    rfl

/-- Witness for C8 on the concrete two-node tree, under both declared IP
versions. -/
theorem claim_C8_witness :
    findIpv4Start dbW mdW6 = (ipv4LeftStep dbW mdW6)^[96] (.ok 0) ∧
    findIpv4Start dbW mdW = .ok 0 ∧
    startNode 5 ((ipToBytes (.v4 0 0 0 1)).length * 8) = 5 :=
  ⟨(claim_C8_ipv4_start dbW mdW6 5).1 rfl,
   (claim_C8_ipv4_start dbW mdW 5).2.1 rfl,
   (claim_C8_ipv4_start dbW mdW 5).2.2.2.1 0 0 0 1⟩

/-- C9: `lookup` takes the reader by shared reference and keeps no state
across calls: a call returns the reader unchanged, a second call made
after any earlier call (including a failed one) returns exactly what a
fresh call on the original reader returns, and a failed call leaves the
reader unchanged.  (Determinism is relative to fixed file contents `db`:
the code re-opens `source_path` on every call, so the "fixed database"
premise of the claim is where the file's bytes enter.) -/
theorem claim_C9_lookup_stateless {T : Type} (db : List UInt8)
    (deserialize : List UInt8 → Nat → Option T) (typeName : String)
    (r : Reader) (address addressBefore : IpAddr) :
    (lookupStep db deserialize typeName addressBefore r).2 = r ∧
    (lookupStep db deserialize typeName address
        ((lookupStep db deserialize typeName addressBefore r).2)).1 =
      (lookupStep db deserialize typeName address r).1 ∧
    (∀ e, (lookupStep db deserialize typeName addressBefore r).1 = .err e →
      (lookupStep db deserialize typeName addressBefore r).2 = r) :=
  ⟨rfl, rfl, fun _ _ => rfl⟩

/-- Witness for C9: a concrete failed lookup (address not found) leaves
the reader unchanged and a repeat call returns the same result. -/
theorem claim_C9_witness :
    (lookupStep dbOne (fun _ _ => (none : Option Unit)) "T" addr6 rOne).2 =
      rOne ∧
    (lookupStep dbOne (fun _ _ => (none : Option Unit)) "T" addr6
        ((lookupStep dbOne (fun _ _ => (none : Option Unit)) "T" addr6
          rOne).2)).1 =
      (lookupStep dbOne (fun _ _ => (none : Option Unit)) "T" addr6 rOne).1 := by
  have h := claim_C9_lookup_stateless dbOne
    (fun _ _ => (none : Option Unit)) "T" rOne addr6 addr6
  exact ⟨h.2.2 (.addressNotFoundError "Address not found in database")
    (by decide), h.2.1⟩

/-- C7 counterexample: `from_source` constructs a `Reader` from a file
whose decoded metadata has `record_size = 23 ∉ {24, 28, 32}` (with
`ip_version = 4`): no invariant validation happens, so the claim that a
violating database never yields a Reader is false.  The file is just the
metadata marker; the decoded metadata is `mdBad`. -/
theorem claim_C7_counterexample :
    from_source METADATA_START_MARKER (fun _ => some mdBad) =
      .ok { metadata := mdBad, ipv4Start := 0, pointerBase := 16 } ∧
    mdBad.record_size = 23 ∧ mdBad.record_size ≠ 24 ∧
    mdBad.record_size ≠ 28 ∧ mdBad.record_size ≠ 32 := by
  refine ⟨by decide, rfl, by decide, by decide, by decide⟩

/-- C7 amended: `from_source` performs no validation of `record_size` or
`ip_version`: whenever the marker scan succeeds and the metadata decoder
yields a metadata value `md` with `md.ip_version ≠ 6`, construction
returns `Ok` with that metadata unchecked (for `ip_version = 6` an
invalid `record_size` can only surface indirectly, as the
`unknown record size` error of `read_node` during the `ipv4_start`
walk when `node_count > 0`). -/
theorem claim_C7_no_validation (db : List UInt8)
    (decodeMeta : List UInt8 → Option Metadata) (ms : Nat) (md : Metadata)
    (hms : find_metadata_start db (1024 * 1024) = .ok ms)
    (hdec : tryDecodeIncreasingBuffer db ms 0 decodeMeta = .ok (some md))
    (hip : md.ip_version ≠ 6) :
    from_source db decodeMeta =
      .ok { metadata := md,
            ipv4Start := 0,
            pointerBase := md.node_count * md.record_size / 4 + 16 } := by
  unfold from_source
  rw [hms]
  simp only [RRes.bind]
  rw [hdec]
  simp only [RRes.bind]
  unfold findIpv4Start
  rw [if_pos hip]

/-- Witness for the amended C7, at the concrete marker-only file with the
invalid metadata `mdBad`. -/
theorem claim_C7_witness :
    from_source METADATA_START_MARKER (fun _ => some mdBad) =
      .ok { metadata := mdBad,
            ipv4Start := 0,
            pointerBase := mdBad.node_count * mdBad.record_size / 4 + 16 } :=
  claim_C7_no_validation METADATA_START_MARKER (fun _ => some mdBad) 14 mdBad
    (by decide) (by decide) (by decide)

end MMDB
